import Mathlib

/-!
# Shallow embedding of the `socks5-server` connection pipeline

This file embeds the connection-handling core of the `socks5-server`
crate (files `src/connection/mod.rs` and `src/connection/connect.rs`)
into Lean 4 and proves the specification claims about it.

Modelling decisions:

* The transport (`tokio::net::TcpStream`) is modelled as a handle
  identity together with an event log recording every I/O operation
  performed on it (framed SOCKS5 message writes, framed message reads,
  raw byte reads/writes, flush, shutdown).  A `&mut TcpStream` borrow in
  Rust corresponds to a function that may only extend the log of the
  same handle.
* The wire codec (`socks5_proto`) is an external collaborator: whether a
  `read_from` parses successfully, and whether a `write_to` succeeds, is
  decided by explicit oracle arguments (`Except Error _` for reads,
  `Option IoError` for writes), exactly the `Result` values the Rust
  code matches on.  A successful framed write appends the written
  message to the log; a failed write leaves the outgoing log unchanged.
* The pluggable authenticator (`Auth` trait object) is a chosen
  handshake method together with an arbitrary sub-protocol
  `execute : TcpStream -> List IoEvent × O`: given mutable access to the
  stream it performs arbitrary further I/O (appended to the log) and
  produces an output of type `O`, with no failure channel, mirroring
  `async fn execute(&mut self, stream: &mut TcpStream) -> O`.
* The Rust phantom type-state tags (`NeedReply`, `Ready`,
  `NeedFirstReply`) become Lean types indexing the wrapper structures,
  so `reply` is only defined at `Connect connect.NeedReply`, as in the
  source.
-/

namespace Socks5

/-- Handshake method byte (`socks5_proto::handshake::Method`). -/
abbrev Method := Nat

/-- `Method::UNACCEPTABLE` (`0xFF`, "no acceptable methods"). -/
def Method.UNACCEPTABLE : Method := 0xff

/-- `socks5_proto::SOCKS_VERSION` (`0x05`). -/
def SOCKS_VERSION : Nat := 0x05

/-- Opaque transport-level I/O error (`std::io::Error`). -/
abbrev IoError := Nat

/-- SOCKS5 reply code byte (`socks5_proto::Reply`). -/
abbrev Reply := Nat

/-- `socks5_proto::Address`: a domain name with port, or a resolved
socket address (modelled opaquely as a numeric address and port). -/
inductive Address where
  | domainAddress (domain : List Nat) (port : Nat)
  | socketAddress (addr : Nat) (port : Nat)
deriving DecidableEq

/-- A framed SOCKS5 message written to the transport by this crate:
either a handshake response naming a method, or a command response
carrying a reply code and a bound address. -/
inductive WireMsg where
  | handshakeResponse (method : Method)
  | response (reply : Reply) (addr : Address)
deriving DecidableEq

/-- One I/O operation performed on the transport. -/
inductive IoEvent where
  | readHandshakeRequest
  | readRequest
  | writeMsg (m : WireMsg)
  | writeBytes (b : List Nat)
  | readBytes (n : Nat)
  | flush
  | shutdownWrite
deriving DecidableEq

/-- The transport: an exclusively owned handle (identified by `id`)
plus the log of every I/O operation performed on it so far. -/
structure TcpStream where
  id : Nat
  log : List IoEvent
deriving DecidableEq

/-- Is this event a write to the outgoing side of the transport? -/
def IoEvent.isWriteEvent : IoEvent → Bool
  | .writeMsg _ => true
  | .writeBytes _ => true
  | .flush => true
  | .shutdownWrite => true
  | _ => false

/-- Is this event a read from the transport? -/
def IoEvent.isReadEvent : IoEvent → Bool
  | .readHandshakeRequest => true
  | .readRequest => true
  | .readBytes _ => true
  | _ => false

/-- The framed SOCKS5 messages this crate has written on the stream,
in order. -/
def TcpStream.msgsWritten (s : TcpStream) : List WireMsg :=
  s.log.filterMap (fun e => match e with | .writeMsg m => some m | _ => none)

/-- The outgoing-side portion of the stream's log. -/
def TcpStream.outLog (s : TcpStream) : List IoEvent :=
  s.log.filter IoEvent.isWriteEvent

/-- Number of read operations in an event list. -/
def readCount (l : List IoEvent) : Nat :=
  (l.filter IoEvent.isReadEvent).length

/-- Number of framed-message write operations in an event list. -/
def msgWriteCount (l : List IoEvent) : Nat :=
  (l.filter (fun e => match e with | IoEvent.writeMsg _ => true | _ => false)).length

/-- `socks5_proto::handshake::Request`: the client's offered method
set (plus the version byte, already checked by the codec). -/
structure HandshakeRequest where
  methods : List Method
deriving DecidableEq

/-- `HandshakeRequest::read_from(&mut stream)`: attempts to parse a
handshake request off the stream.  The parse outcome is the codec
oracle `outcome`; the read attempt is recorded on the log either way. -/
def HandshakeRequest.read_from (outcome : Except Error HandshakeRequest) (s : TcpStream) :
    Except (Error × TcpStream) (HandshakeRequest × TcpStream) :=
  match outcome with
  | .error e => .error (e, { s with log := s.log ++ [IoEvent.readHandshakeRequest] })
  | .ok r => .ok (r, { s with log := s.log ++ [IoEvent.readHandshakeRequest] })

/-- `socks5_proto::handshake::Response`: names one method. -/
structure HandshakeResponse where
  method : Method
deriving DecidableEq

/-- `HandshakeResponse::new`. -/
def HandshakeResponse.new (m : Method) : HandshakeResponse := ⟨m⟩

/-- `HandshakeResponse::write_to(&mut stream)`: the write oracle
`outcome` decides success; on success the framed message is appended
to the log, on failure the outgoing log is unchanged. -/
def HandshakeResponse.write_to (resp : HandshakeResponse) (outcome : Option IoError)
    (s : TcpStream) : Except IoError TcpStream :=
  match outcome with
  | some e => .error e
  | none => .ok { s with log := s.log ++ [IoEvent.writeMsg (WireMsg.handshakeResponse resp.method)] }

/-- `socks5_proto::ProtocolError` (the variant this core constructs,
plus an opaque catch-all for codec-produced protocol errors). -/
inductive ProtocolError where
  | noAcceptableHandshakeMethod (version : Nat) (chosenMethod : Method) (methods : List Method)
  | other (code : Nat)
deriving DecidableEq

/-- `socks5_proto::Error`: transport I/O failure or protocol failure. -/
inductive Error where
  | io (e : IoError)
  | protocol (e : ProtocolError)
deriving DecidableEq

/-- The pluggable authenticator (`Auth` trait, via `AuthAdaptor`):
`as_handshake_method` declares the chosen method; `execute` is the
delegated sub-protocol, which given the stream performs arbitrary
further I/O on it and produces an output `O` (no failure channel). -/
structure Auth (O : Type) where
  as_handshake_method : Method
  execute : TcpStream → List IoEvent × O

/-- Running `auth.execute(&mut stream)`: the sub-protocol's events are
appended to the same handle's log, and its output is returned. -/
def Auth.run {O : Type} (a : Auth O) (s : TcpStream) : TcpStream × O :=
  ({ s with log := s.log ++ (a.execute s).1 }, (a.execute s).2)

/-- The built-in trivial authenticator (`auth::NoAuth`): offers method
`0x00` (no authentication) and returns `()` doing no extra I/O. -/
def NoAuth : Auth Unit := ⟨0x00, fun _ => ([], ())⟩

/-- `IncomingConnection<O>`: a freshly accepted transport plus the
authenticator. -/
structure IncomingConnection (O : Type) where
  stream : TcpStream
  auth : Auth O

/-- `Authenticated`: a transport that passed the handshake. -/
structure Authenticated where
  stream : TcpStream
deriving DecidableEq

/-- `Authenticated::new`. -/
def Authenticated.new (s : TcpStream) : Authenticated := ⟨s⟩

/-- `IncomingConnection::authenticate`, from
`src/connection/mod.rs` lines 41-74.  `readOutcome` is the codec's
parse result for the handshake request and `writeOutcome` the I/O
result of the single handshake-response write. -/
def IncomingConnection.authenticate {O : Type} (self : IncomingConnection O)
    (readOutcome : Except Error HandshakeRequest) (writeOutcome : Option IoError) :
    Except (Error × TcpStream) (Authenticated × O) :=
  match HandshakeRequest.read_from readOutcome self.stream with
  | .error (err, s) => .error (err, s)
  | .ok (req, s) =>
    let chosen_method := self.auth.as_handshake_method
    if req.methods.contains chosen_method then
      let resp := HandshakeResponse.new chosen_method
      match resp.write_to writeOutcome s with
      | .error err => .error (Error.io err, s)
      | .ok s1 =>
        let out := self.auth.run s1
        .ok (Authenticated.new out.1, out.2)
    else
      let resp := HandshakeResponse.new Method.UNACCEPTABLE
      match resp.write_to writeOutcome s with
      | .error err => .error (Error.io err, s)
      | .ok s1 =>
        .error (Error.protocol (ProtocolError.noAcceptableHandshakeMethod
          SOCKS_VERSION chosen_method req.methods), s1)

/-- `socks5_proto::Command`. -/
inductive ProtocolCommand where
  | associate
  | bind
  | connect
deriving DecidableEq

/-- `socks5_proto::Request`: command kind plus target address. -/
structure Request where
  command : ProtocolCommand
  address : Address
deriving DecidableEq

/-- `Request::read_from(&mut stream)`: the parse outcome is the codec
oracle; the read attempt is recorded on the log either way. -/
def Request.read_from (outcome : Except Error Request) (s : TcpStream) :
    Except (Error × TcpStream) (Request × TcpStream) :=
  match outcome with
  | .error e => .error (e, { s with log := s.log ++ [IoEvent.readRequest] })
  | .ok r => .ok (r, { s with log := s.log ++ [IoEvent.readRequest] })

namespace connect

/-- Marker type: the CONNECT stage still needs its reply written. -/
structure NeedReply
deriving DecidableEq

/-- Marker type: the CONNECT stage is ready for use as a plain stream. -/
structure Ready
deriving DecidableEq

end connect

namespace bind

/-- Marker type: the BIND stage still needs its first reply. -/
structure NeedFirstReply
deriving DecidableEq

end bind

namespace associate

/-- Marker type: the ASSOCIATE stage still needs its reply written. -/
structure NeedReply
deriving DecidableEq

end associate

/-- `Connect<S>`: the CONNECT command stage, a transport tagged by a
phantom reply-state type `S`. -/
structure Connect (S : Type) where
  stream : TcpStream
deriving DecidableEq

/-- `Bind<S>`: the BIND command stage. -/
structure Bind (S : Type) where
  stream : TcpStream
deriving DecidableEq

/-- `Associate<S>`: the ASSOCIATE command stage. -/
structure Associate (S : Type) where
  stream : TcpStream
deriving DecidableEq

/-- `connection::Command`: the dispatched command stage with the parsed
target address. -/
inductive Command where
  | associate (a : Associate associate.NeedReply) (addr : Address)
  | bind (b : Bind bind.NeedFirstReply) (addr : Address)
  | connect (c : Connect connect.NeedReply) (addr : Address)
deriving DecidableEq

/-- The transport held inside a dispatched command stage. -/
def Command.stream : Command → TcpStream
  | .associate a _ => a.stream
  | .bind b _ => b.stream
  | .connect c _ => c.stream

/-- `Authenticated::wait_request`, from `src/connection/mod.rs`
lines 169-189.  `readOutcome` is the codec's parse result for the
SOCKS5 request. -/
def Authenticated.wait_request (self : Authenticated)
    (readOutcome : Except Error Request) :
    Except (Error × TcpStream) Command :=
  match Request.read_from readOutcome self.stream with
  | .error (err, s) => .error (err, s)
  | .ok (req, s) =>
    match req.command with
    | ProtocolCommand.associate =>
      .ok (Command.associate (Associate.mk s) req.address)
    | ProtocolCommand.bind =>
      .ok (Command.bind (Bind.mk s) req.address)
    | ProtocolCommand.connect =>
      .ok (Command.connect (Connect.mk s) req.address)

/-- `socks5_proto::Response`: reply code plus bound address. -/
structure Response where
  reply : Reply
  address : Address
deriving DecidableEq

/-- `Response::new`. -/
def Response.new (r : Reply) (a : Address) : Response := ⟨r, a⟩

/-- `Response::write_to(&mut stream)`: the write oracle decides
success; on success the framed response is appended to the log. -/
def Response.write_to (resp : Response) (outcome : Option IoError)
    (s : TcpStream) : Except IoError TcpStream :=
  match outcome with
  | some e => .error e
  | none => .ok { s with log := s.log ++ [IoEvent.writeMsg (WireMsg.response resp.reply resp.address)] }

/-- `Connect::<NeedReply>::reply`, from `src/connection/connect.rs`
lines 49-61: writes the response and re-tags the transport `Ready` on
success, or returns the raw transport with the error on failure. -/
def Connect.reply (self : Connect connect.NeedReply) (reply : Reply) (addr : Address)
    (writeOutcome : Option IoError) :
    Except (IoError × TcpStream) (Connect connect.Ready) :=
  let resp := Response.new reply addr
  match resp.write_to writeOutcome self.stream with
  | .error err => .error (err, self.stream)
  | .ok s => .ok (Connect.mk s)

/-- `impl<S> From<Connect<S>> for TcpStream`: conversion back to the
raw transport, available at every state tag. -/
def Connect.intoTcpStream {S : Type} (self : Connect S) : TcpStream :=
  self.stream

/-- One operation from `Connect<Ready>`'s public surface: the
`AsyncRead`/`AsyncWrite` passthroughs and the socket-option accessors
(`local_addr`, `peer_addr`, `linger`, `nodelay`, `ttl` and their
setters, which touch socket options, not the byte stream). -/
inductive ReadyOp where
  | pollRead (n : Nat)
  | pollWrite (b : List Nat)
  | pollFlush
  | pollShutdown
  | sockOptAccess
deriving DecidableEq

/-- Effect of one `Connect<Ready>` public operation on the transport:
each delegates directly to the underlying `TcpStream`. -/
def Connect.applyReadyOp (self : Connect connect.Ready) : ReadyOp → Connect connect.Ready
  | ReadyOp.pollRead n => Connect.mk { self.stream with log := self.stream.log ++ [IoEvent.readBytes n] }
  | ReadyOp.pollWrite b => Connect.mk { self.stream with log := self.stream.log ++ [IoEvent.writeBytes b] }
  | ReadyOp.pollFlush => Connect.mk { self.stream with log := self.stream.log ++ [IoEvent.flush] }
  | ReadyOp.pollShutdown => Connect.mk { self.stream with log := self.stream.log ++ [IoEvent.shutdownWrite] }
  | ReadyOp.sockOptAccess => self

/-- Effect of a sequence of `Connect<Ready>` public operations. -/
def Connect.applyReadyOps (self : Connect connect.Ready) : List ReadyOp → Connect connect.Ready
  | [] => self
  | op :: ops => (self.applyReadyOp op).applyReadyOps ops

/-- The stream after performing the given additional operations on it. -/
def TcpStream.afterEvents (s : TcpStream) (evs : List IoEvent) : TcpStream :=
  { s with log := s.log ++ evs }

theorem TcpStream.id_afterEvents (s : TcpStream) (evs : List IoEvent) :
    (s.afterEvents evs).id = s.id := rfl

theorem TcpStream.msgsWritten_afterEvents (s : TcpStream) (evs : List IoEvent) :
    (s.afterEvents evs).msgsWritten =
      s.msgsWritten ++ evs.filterMap (fun e => match e with | IoEvent.writeMsg m => some m | _ => none) := by
  simp [TcpStream.afterEvents, TcpStream.msgsWritten, List.filterMap_append]

theorem TcpStream.outLog_afterEvents (s : TcpStream) (evs : List IoEvent) :
    (s.afterEvents evs).outLog = s.outLog ++ evs.filter IoEvent.isWriteEvent := by
  simp [TcpStream.afterEvents, TcpStream.outLog, List.filter_append]

/-- C3: For every successfully parsed SOCKS5 request, `wait_request`
returns `Ok` with exactly the command variant matching the request's
command kind (Connect ↦ `Connect<NeedReply>`, Bind ↦
`Bind<NeedFirstReply>`, Associate ↦ `Associate<NeedReply>`), wrapping
the same transport (after the one request read) and carrying the exact
address parsed from the request; no other variant is produced. -/
theorem wait_request_dispatches_matching_variant (auth : Authenticated) (req : Request) :
    auth.wait_request (Except.ok req) = Except.ok
      (match req.command with
       | ProtocolCommand.associate =>
         Command.associate (Associate.mk (auth.stream.afterEvents [IoEvent.readRequest])) req.address
       | ProtocolCommand.bind =>
         Command.bind (Bind.mk (auth.stream.afterEvents [IoEvent.readRequest])) req.address
       | ProtocolCommand.connect =>
         Command.connect (Connect.mk (auth.stream.afterEvents [IoEvent.readRequest])) req.address) := by
  cases req with
  | mk cmd addr => cases cmd <;> rfl

/-- C4: For every reply code and address, `Connect<NeedReply>::reply`
writes a response containing exactly that reply code and address; on
write failure it returns the error paired with the raw unwrapped
transport, and on success it returns the same transport (same handle)
re-tagged `Ready` with exactly the one response appended. -/
theorem connect_reply_behaviour (c : Connect connect.NeedReply) (r : Reply) (a : Address) :
    (∀ e : IoError, c.reply r a (some e) = Except.error (e, c.stream)) ∧
    c.reply r a none =
      Except.ok (Connect.mk (c.stream.afterEvents [IoEvent.writeMsg (WireMsg.response r a)])) ∧
    (c.stream.afterEvents [IoEvent.writeMsg (WireMsg.response r a)]).msgsWritten
      = c.stream.msgsWritten ++ [WireMsg.response r a] ∧
    (c.stream.afterEvents [IoEvent.writeMsg (WireMsg.response r a)]).id = c.stream.id := by
  refine ⟨fun e => rfl, rfl, ?_, rfl⟩
  simp [TcpStream.msgsWritten_afterEvents]

/-- C10: The conversion from `Connect<S>` to the raw transport is
available at every state tag `S`, including `NeedReply` (so a caller
can extract the raw transport before any reply has been written), and
it returns exactly the owned transport unchanged. -/
theorem from_connect_every_state (S : Type) (c : Connect S) :
    Connect.intoTcpStream c = c.stream ∧
    (Connect.intoTcpStream c).id = c.stream.id ∧
    (Connect.intoTcpStream c).msgsWritten = c.stream.msgsWritten := ⟨rfl, rfl, rfl⟩

/-- C1: For every handshake request whose method set contains the
authenticator's chosen handshake method, and a successful response
write, `authenticate` writes a handshake response naming exactly the
chosen method and returns `Ok` with an `Authenticated` wrapper around
the same transport (same handle, after the handshake round trip and
the delegated sub-protocol) together with the authenticator's output. -/
theorem authenticate_accepts_offered_method {O : Type}
    (conn : IncomingConnection O) (req : HandshakeRequest)
    (hm : req.methods.contains conn.auth.as_handshake_method = true) :
    conn.authenticate (Except.ok req) none = Except.ok
      (Authenticated.new
        (conn.auth.run (conn.stream.afterEvents
          [IoEvent.readHandshakeRequest,
           IoEvent.writeMsg (WireMsg.handshakeResponse conn.auth.as_handshake_method)])).1,
       (conn.auth.run (conn.stream.afterEvents
          [IoEvent.readHandshakeRequest,
           IoEvent.writeMsg (WireMsg.handshakeResponse conn.auth.as_handshake_method)])).2) ∧
    (conn.stream.afterEvents
        [IoEvent.readHandshakeRequest,
         IoEvent.writeMsg (WireMsg.handshakeResponse conn.auth.as_handshake_method)]).msgsWritten
      = conn.stream.msgsWritten ++ [WireMsg.handshakeResponse conn.auth.as_handshake_method] ∧
    (conn.auth.run (conn.stream.afterEvents
        [IoEvent.readHandshakeRequest,
         IoEvent.writeMsg (WireMsg.handshakeResponse conn.auth.as_handshake_method)])).1.id
      = conn.stream.id := by
  have hmem : conn.auth.as_handshake_method ∈ req.methods := by
    simpa using hm
  refine ⟨?_, ?_, rfl⟩
  · simp [IncomingConnection.authenticate, HandshakeRequest.read_from,
      HandshakeResponse.write_to, HandshakeResponse.new, TcpStream.afterEvents, hm, hmem]
  · simp [TcpStream.msgsWritten_afterEvents]

/-- Witness for C1 at a concrete input: the no-auth server accepting a
client that offers method `0x00`. -/
theorem authenticate_accepts_offered_method_witness :
    (IncomingConnection.mk (TcpStream.mk 7 []) NoAuth).authenticate
        (Except.ok (HandshakeRequest.mk [0x00, 0x02])) none = Except.ok
      (Authenticated.new
        ((TcpStream.mk 7 []).afterEvents
          [IoEvent.readHandshakeRequest, IoEvent.writeMsg (WireMsg.handshakeResponse 0x00)]),
       ()) ∧
    ((TcpStream.mk 7 []).afterEvents
        [IoEvent.readHandshakeRequest, IoEvent.writeMsg (WireMsg.handshakeResponse 0x00)]).msgsWritten
      = [WireMsg.handshakeResponse 0x00] := by
  have h := authenticate_accepts_offered_method
    (IncomingConnection.mk (TcpStream.mk 7 []) NoAuth)
    (HandshakeRequest.mk [0x00, 0x02]) (by decide)
  refine ⟨?_, ?_⟩
  · exact h.1
  · have h2 := h.2.1
    simpa [TcpStream.msgsWritten] using h2

/-- C2: For every handshake request whose method set does not contain
the chosen method, `authenticate` first writes a handshake response
naming `UNACCEPTABLE`; only if that write succeeds does it return a
protocol error carrying the attempted (chosen) method and the client's
full offered method set, paired with the transport (same handle); if
the rejection write itself fails, an I/O error paired with the
transport is returned instead. -/
theorem authenticate_rejects_unoffered_method {O : Type}
    (conn : IncomingConnection O) (req : HandshakeRequest)
    (hm : req.methods.contains conn.auth.as_handshake_method = false) :
    conn.authenticate (Except.ok req) none = Except.error
      (Error.protocol (ProtocolError.noAcceptableHandshakeMethod
        SOCKS_VERSION conn.auth.as_handshake_method req.methods),
       conn.stream.afterEvents
        [IoEvent.readHandshakeRequest,
         IoEvent.writeMsg (WireMsg.handshakeResponse Method.UNACCEPTABLE)]) ∧
    (∀ e : IoError, conn.authenticate (Except.ok req) (some e) = Except.error
      (Error.io e, conn.stream.afterEvents [IoEvent.readHandshakeRequest])) ∧
    (conn.stream.afterEvents
        [IoEvent.readHandshakeRequest,
         IoEvent.writeMsg (WireMsg.handshakeResponse Method.UNACCEPTABLE)]).msgsWritten
      = conn.stream.msgsWritten ++ [WireMsg.handshakeResponse Method.UNACCEPTABLE] ∧
    (conn.stream.afterEvents
        [IoEvent.readHandshakeRequest,
         IoEvent.writeMsg (WireMsg.handshakeResponse Method.UNACCEPTABLE)]).id = conn.stream.id ∧
    (conn.stream.afterEvents [IoEvent.readHandshakeRequest]).msgsWritten
      = conn.stream.msgsWritten := by
  have hmem : conn.auth.as_handshake_method ∉ req.methods := by
    simpa using hm
  refine ⟨?_, ?_, ?_, rfl, ?_⟩
  · simp [IncomingConnection.authenticate, HandshakeRequest.read_from,
      HandshakeResponse.write_to, HandshakeResponse.new, TcpStream.afterEvents, hm, hmem]
  · intro e
    simp [IncomingConnection.authenticate, HandshakeRequest.read_from,
      HandshakeResponse.write_to, HandshakeResponse.new, TcpStream.afterEvents, hm, hmem]
  · simp [TcpStream.msgsWritten_afterEvents]
  · simp [TcpStream.msgsWritten_afterEvents]

/-- Witness for C2 at a concrete input: a client offering only GSSAPI
(`0x01`) against the no-auth server. -/
theorem authenticate_rejects_unoffered_method_witness :
    (IncomingConnection.mk (TcpStream.mk 3 []) NoAuth).authenticate
        (Except.ok (HandshakeRequest.mk [0x01])) none = Except.error
      (Error.protocol (ProtocolError.noAcceptableHandshakeMethod 0x05 0x00 [0x01]),
       (TcpStream.mk 3 []).afterEvents
        [IoEvent.readHandshakeRequest,
         IoEvent.writeMsg (WireMsg.handshakeResponse Method.UNACCEPTABLE)]) ∧
    (IncomingConnection.mk (TcpStream.mk 3 []) NoAuth).authenticate
        (Except.ok (HandshakeRequest.mk [0x01])) (some 9) = Except.error
      (Error.io 9, (TcpStream.mk 3 []).afterEvents [IoEvent.readHandshakeRequest]) := by
  have h := authenticate_rejects_unoffered_method
    (IncomingConnection.mk (TcpStream.mk 3 []) NoAuth)
    (HandshakeRequest.mk [0x01]) (by decide)
  exact ⟨h.1, h.2.1 9⟩

/-- C6: If the initial read fails (malformed handshake request in
`authenticate`, malformed request in `wait_request`), the operation
returns the collaborator's error paired with the transport without
having performed any write: the outgoing side of the log and the list
of written SOCKS5 messages are unchanged on that error path. -/
theorem read_failure_returns_transport_without_write :
    (∀ (O : Type) (conn : IncomingConnection O) (err : Error) (wo : Option IoError),
      conn.authenticate (Except.error err) wo =
        Except.error (err, conn.stream.afterEvents [IoEvent.readHandshakeRequest]) ∧
      (conn.stream.afterEvents [IoEvent.readHandshakeRequest]).outLog = conn.stream.outLog ∧
      (conn.stream.afterEvents [IoEvent.readHandshakeRequest]).msgsWritten
        = conn.stream.msgsWritten) ∧
    (∀ (auth : Authenticated) (err : Error),
      auth.wait_request (Except.error err) =
        Except.error (err, auth.stream.afterEvents [IoEvent.readRequest]) ∧
      (auth.stream.afterEvents [IoEvent.readRequest]).outLog = auth.stream.outLog ∧
      (auth.stream.afterEvents [IoEvent.readRequest]).msgsWritten = auth.stream.msgsWritten) := by
  constructor
  · intro O conn err wo
    refine ⟨rfl, ?_, ?_⟩
    · simp [TcpStream.outLog_afterEvents, IoEvent.isWriteEvent]
    · simp [TcpStream.msgsWritten_afterEvents]
  · intro auth err
    refine ⟨rfl, ?_, ?_⟩
    · simp [TcpStream.outLog_afterEvents, IoEvent.isWriteEvent]
    · simp [TcpStream.msgsWritten_afterEvents]

/-- C9 (implicit): once the handshake response naming the chosen
method has been written successfully, `authenticate` cannot fail: the
authenticator's `execute` returns its output directly (it has no
failure channel in its type), and `authenticate` unconditionally
returns `Ok` carrying exactly that output — for every authenticator
implementation. -/
theorem authenticate_never_errs_after_accept_write {O : Type}
    (conn : IncomingConnection O) (req : HandshakeRequest)
    (hm : req.methods.contains conn.auth.as_handshake_method = true) :
    (match conn.authenticate (Except.ok req) none with
     | Except.ok (_, o) =>
       o = (conn.auth.run (conn.stream.afterEvents
         [IoEvent.readHandshakeRequest,
          IoEvent.writeMsg (WireMsg.handshakeResponse conn.auth.as_handshake_method)])).2
     | Except.error _ => False) := by
  have hmem : conn.auth.as_handshake_method ∈ req.methods := by
    simpa using hm
  simp [IncomingConnection.authenticate, HandshakeRequest.read_from,
    HandshakeResponse.write_to, HandshakeResponse.new, TcpStream.afterEvents, hm, hmem]

/-- Witness for C9 at a concrete input. -/
theorem authenticate_never_errs_after_accept_write_witness :
    (match (IncomingConnection.mk (TcpStream.mk 1 []) NoAuth).authenticate
        (Except.ok (HandshakeRequest.mk [0x00])) none with
     | Except.ok (_, o) =>
       o = (NoAuth.run ((TcpStream.mk 1 []).afterEvents
         [IoEvent.readHandshakeRequest,
          IoEvent.writeMsg (WireMsg.handshakeResponse 0x00)])).2
     | Except.error _ => False) :=
  authenticate_never_errs_after_accept_write
    (IncomingConnection.mk (TcpStream.mk 1 []) NoAuth)
    (HandshakeRequest.mk [0x00]) (by decide)

/-- C5: Transport conservation: every fallible pipeline operation
(`authenticate`, `wait_request`, `reply`) returns exactly one of a
success value wrapping the transport or an (error, transport) pair,
and in either case the transport is the same handle the operation was
given — for every input and every I/O outcome. -/
theorem transport_conserved_across_pipeline :
    (∀ (O : Type) (conn : IncomingConnection O)
        (ro : Except Error HandshakeRequest) (wo : Option IoError),
      (match conn.authenticate ro wo with
       | Except.ok (a, _) => a.stream.id
       | Except.error (_, s) => s.id) = conn.stream.id) ∧
    (∀ (auth : Authenticated) (ro : Except Error Request),
      (match auth.wait_request ro with
       | Except.ok cmd => cmd.stream.id
       | Except.error (_, s) => s.id) = auth.stream.id) ∧
    (∀ (c : Connect connect.NeedReply) (r : Reply) (a : Address) (wo : Option IoError),
      (match c.reply r a wo with
       | Except.ok c2 => c2.stream.id
       | Except.error (_, s) => s.id) = c.stream.id) := by
  refine ⟨?_, ?_, ?_⟩
  · intro O conn ro wo
    cases ro with
    | error e => rfl
    | ok req =>
      by_cases hmem : conn.auth.as_handshake_method ∈ req.methods
      all_goals cases wo with
      | none =>
        simp [IncomingConnection.authenticate, HandshakeRequest.read_from,
          HandshakeResponse.write_to, HandshakeResponse.new, Auth.run,
          Authenticated.new, hmem]
      | some e =>
        simp [IncomingConnection.authenticate, HandshakeRequest.read_from,
          HandshakeResponse.write_to, HandshakeResponse.new, Authenticated.new, hmem]
  · intro auth ro
    cases ro with
    | error e => rfl
    | ok req => cases hc : req.command <;>
        simp [Authenticated.wait_request, Request.read_from, Command.stream, hc]
  · intro c r a wo
    cases wo <;> rfl

/-- Counterexample to C7 as stated: the claim (following the spec's
"one read-then-optional-write round trip" sentence) asserts that
`Connect<NeedReply>::reply` performs one read, but at this concrete
input a successful `reply` leaves a transcript consisting of exactly
one response write and zero reads. -/
theorem connect_reply_performs_no_read :
    Connect.reply (Connect.mk (TcpStream.mk 2 []) : Connect connect.NeedReply)
        0 (Address.socketAddress 1 2) none
      = Except.ok (Connect.mk (TcpStream.mk 2
          [IoEvent.writeMsg (WireMsg.response 0 (Address.socketAddress 1 2))])) ∧
    readCount [IoEvent.writeMsg (WireMsg.response 0 (Address.socketAddress 1 2))] = 0 ∧
    msgWriteCount [IoEvent.writeMsg (WireMsg.response 0 (Address.socketAddress 1 2))] = 1 :=
  ⟨rfl, rfl, rfl⟩

/-- C7 (amended): `authenticate` performs exactly one
handshake-message read followed by at most one handshake-response
write before the delegated authenticator sub-protocol runs (and on
every error path that is its entire transcript); `wait_request`
performs exactly one read and no write; `reply` performs exactly one
response write on success, no write event on failure, and no read at
all — for every input and every I/O outcome. -/
theorem stage_transitions_trace_shape :
    (∀ (O : Type) (conn : IncomingConnection O)
        (ro : Except Error HandshakeRequest) (wo : Option IoError),
      ∃ pre : List IoEvent,
        readCount pre = 1 ∧ msgWriteCount pre ≤ 1 ∧
        (match conn.authenticate ro wo with
         | Except.error (_, s) => s = conn.stream.afterEvents pre
         | Except.ok (a, _) => a.stream = (conn.auth.run (conn.stream.afterEvents pre)).1)) ∧
    (∀ (auth : Authenticated) (ro : Except Error Request),
      readCount [IoEvent.readRequest] = 1 ∧ msgWriteCount [IoEvent.readRequest] = 0 ∧
      (match auth.wait_request ro with
       | Except.error (_, s) => s = auth.stream.afterEvents [IoEvent.readRequest]
       | Except.ok cmd => cmd.stream = auth.stream.afterEvents [IoEvent.readRequest])) ∧
    (∀ (c : Connect connect.NeedReply) (r : Reply) (a : Address) (wo : Option IoError),
      ∃ delta : List IoEvent,
        readCount delta = 0 ∧
        (match c.reply r a wo with
         | Except.error (_, s) => s = c.stream.afterEvents delta ∧ delta = []
         | Except.ok c2 => c2.stream = c.stream.afterEvents delta ∧ msgWriteCount delta = 1)) := by
  refine ⟨?_, ?_, ?_⟩
  · intro O conn ro wo
    cases ro with
    | error e =>
      exact ⟨[IoEvent.readHandshakeRequest], by simp [readCount, IoEvent.isReadEvent],
        by simp [msgWriteCount], rfl⟩
    | ok req =>
      by_cases hmem : conn.auth.as_handshake_method ∈ req.methods
      · cases wo with
        | none =>
          refine ⟨[IoEvent.readHandshakeRequest,
            IoEvent.writeMsg (WireMsg.handshakeResponse conn.auth.as_handshake_method)],
            by simp [readCount, IoEvent.isReadEvent], by simp [msgWriteCount], ?_⟩
          simp [IncomingConnection.authenticate, HandshakeRequest.read_from,
            HandshakeResponse.write_to, HandshakeResponse.new, Authenticated.new,
            TcpStream.afterEvents, hmem]
        | some e =>
          refine ⟨[IoEvent.readHandshakeRequest],
            by simp [readCount, IoEvent.isReadEvent], by simp [msgWriteCount], ?_⟩
          simp [IncomingConnection.authenticate, HandshakeRequest.read_from,
            HandshakeResponse.write_to, HandshakeResponse.new, TcpStream.afterEvents, hmem]
      · cases wo with
        | none =>
          refine ⟨[IoEvent.readHandshakeRequest,
            IoEvent.writeMsg (WireMsg.handshakeResponse Method.UNACCEPTABLE)],
            by simp [readCount, IoEvent.isReadEvent], by simp [msgWriteCount], ?_⟩
          simp [IncomingConnection.authenticate, HandshakeRequest.read_from,
            HandshakeResponse.write_to, HandshakeResponse.new, TcpStream.afterEvents, hmem]
        | some e =>
          refine ⟨[IoEvent.readHandshakeRequest],
            by simp [readCount, IoEvent.isReadEvent], by simp [msgWriteCount], ?_⟩
          simp [IncomingConnection.authenticate, HandshakeRequest.read_from,
            HandshakeResponse.write_to, HandshakeResponse.new, TcpStream.afterEvents, hmem]
  · intro auth ro
    refine ⟨by simp [readCount, IoEvent.isReadEvent], by simp [msgWriteCount], ?_⟩
    cases ro with
    | error e => rfl
    | ok req => cases hc : req.command <;>
        simp [Authenticated.wait_request, Request.read_from, Command.stream,
          TcpStream.afterEvents, hc]
  · intro c r a wo
    cases wo with
    | none =>
      exact ⟨[IoEvent.writeMsg (WireMsg.response r a)],
        by simp [readCount, IoEvent.isReadEvent], rfl, by simp [msgWriteCount]⟩
    | some e =>
      exact ⟨[], rfl, by simp [TcpStream.afterEvents], rfl⟩

/-- No `Connect<Ready>` public operation appends a framed SOCKS5
message to the transport's log. -/
theorem msgsWritten_applyReadyOp (c : Connect connect.Ready) (op : ReadyOp) :
    (c.applyReadyOp op).stream.msgsWritten = c.stream.msgsWritten := by
  cases op <;>
    simp [Connect.applyReadyOp, TcpStream.msgsWritten, List.filterMap_append]

/-- No sequence of `Connect<Ready>` public operations appends a framed
SOCKS5 message to the transport's log. -/
theorem msgsWritten_applyReadyOps (c : Connect connect.Ready) (ops : List ReadyOp) :
    (c.applyReadyOps ops).stream.msgsWritten = c.stream.msgsWritten := by
  induction ops generalizing c with
  | nil => rfl
  | cons op ops ih =>
    rw [Connect.applyReadyOps, ih, msgsWritten_applyReadyOp]

/-- C8: Once a CONNECT stage reaches `Ready` (which in the embedding,
as in the source, is only possible through a successful
`Connect<NeedReply>::reply` — `reply` is typed `NeedReply → Ready` and
no reply operation is defined at `Ready`), every sequence of public
`Ready` operations (read/write/flush/shutdown passthroughs and
socket-option accessors), as well as the conversion to the raw
transport, leaves the list of written SOCKS5 messages exactly as
`reply` left it: the original messages plus the single response — so
at most one response is written per CONNECT stage. -/
theorem ready_stage_writes_no_second_response
    (c : Connect connect.NeedReply) (r : Reply) (a : Address)
    (c2 : Connect connect.Ready) (h : c.reply r a none = Except.ok c2)
    (ops : List ReadyOp) :
    (c2.applyReadyOps ops).stream.msgsWritten
      = c.stream.msgsWritten ++ [WireMsg.response r a] ∧
    (Connect.intoTcpStream (c2.applyReadyOps ops)).msgsWritten
      = c.stream.msgsWritten ++ [WireMsg.response r a] := by
  have hr : c.reply r a none = Except.ok
      (Connect.mk (c.stream.afterEvents [IoEvent.writeMsg (WireMsg.response r a)])) := rfl
  have hc2 : c2 = Connect.mk (c.stream.afterEvents [IoEvent.writeMsg (WireMsg.response r a)]) := by
    have h2 := h.symm.trans hr
    exact (Except.ok.injEq _ _).mp h2
  subst hc2
  have hm : ((Connect.mk (c.stream.afterEvents [IoEvent.writeMsg (WireMsg.response r a)]) :
      Connect connect.Ready).applyReadyOps ops).stream.msgsWritten
      = c.stream.msgsWritten ++ [WireMsg.response r a] := by
    rw [msgsWritten_applyReadyOps]
    simp [TcpStream.msgsWritten_afterEvents]
  exact ⟨hm, hm⟩

/-- Witness for C8 at a concrete input: after a successful reply, a
raw write and a flush in `Ready` leave exactly the one response
written. -/
theorem ready_stage_writes_no_second_response_witness :
    ((Connect.mk ((TcpStream.mk 5 []).afterEvents
        [IoEvent.writeMsg (WireMsg.response 0 (Address.socketAddress 1 2))]) :
        Connect connect.Ready).applyReadyOps
          [ReadyOp.pollWrite [1, 2, 3], ReadyOp.pollFlush]).stream.msgsWritten
      = [WireMsg.response 0 (Address.socketAddress 1 2)] := by
  have h := ready_stage_writes_no_second_response
    (Connect.mk (TcpStream.mk 5 []) : Connect connect.NeedReply)
    0 (Address.socketAddress 1 2)
    (Connect.mk ((TcpStream.mk 5 []).afterEvents
      [IoEvent.writeMsg (WireMsg.response 0 (Address.socketAddress 1 2))]))
    rfl [ReadyOp.pollWrite [1, 2, 3], ReadyOp.pollFlush]
  simpa [TcpStream.msgsWritten] using h.1

end Socks5
